import Mathlib

/-!
Verification development for the SentinelOne MCP server repository.

The subject of the claims is the asynchronous Deep-Visibility search-job
lifecycle in `src/tools/hash.ts` (`handleHashLookup`) together with the
bounded-timeout request primitive `request` of the REST client
(`src/client/rest.ts`).

Modelling conventions:
  * JavaScript thrown values are `JsThrown`: either an `Error` object
    (with `name` and `message` fields) or any other value, carried as its
    `String(...)` rendering.  `jsMessage` mirrors the idiom
    `e instanceof Error ? e.message : String(e)`.
  * Network effects are abstracted by oracles: a call site's behaviour is a
    function from the call index (and, for the job endpoints, the request's
    identifying argument) to the outcome the remote platform produced.  The
    orchestrator's observable behaviour is then a pure function of the
    oracle, and each invocation additionally reports a `Trace` counting the
    create / status / events calls it issued.
  * The fixed inter-attempt delays (`setTimeout` waits of 3000/1000/2000 ms)
    have no observable effect on any claimed property and are not modelled.
  * `while`-loops whose counter strictly increases on every `continue` are
    translated to structural recursion on the remaining budget
    (`fuel = maxAttempts - attempts`); the correspondence is noted at each
    definition.
-/

/-- A JavaScript `Error` object: the fields the repository reads. -/
structure JsError where
  name : String
  message : String
deriving DecidableEq, Repr

/-- A thrown JavaScript value: an `Error` instance, or any other value
rendered by `String(...)`. -/
inductive JsThrown where
  | error (e : JsError)
  | other (s : String)
deriving DecidableEq, Repr

/-- Mirrors the idiom `x instanceof Error ? x.message : String(x)` used at
`src/tools/hash.ts` lines 75, 145 and 198. -/
def jsMessage : JsThrown → String
  | .error e => e.message
  | .other s => s

/-- Tests whether the second character list is an initial segment of the
first. -/
def leadingMatch : List Char → List Char → Bool
  | _, [] => true
  | [], _ :: _ => false
  | c :: cs, p :: ps => c == p && leadingMatch cs ps

/-- Tests whether the second character list occurs contiguously inside the
first. -/
def hasSub : List Char → List Char → Bool
  | [], p => p.isEmpty
  | s@(_ :: rest), p => leadingMatch s p || hasSub rest p

/-- Mirrors `msg.includes("409")` (`src/tools/hash.ts` lines 76 and 146):
true iff `"409"` occurs as a substring. -/
def includes409 (msg : String) : Bool :=
  hasSub msg.data "409".data

/-! ## The REST client's data shapes (`src/client/types.ts`) -/

/-- Response of `createDVQuery` (`DVQueryResponse` in `src/client/types.ts`). -/
structure DVQueryResponse where
  queryId : String
  status : String
deriving DecidableEq, Repr

/-- The status union `"RUNNING" | "FINISHED" | "FAILED" | "CANCELED"` of
`DVQueryStatus.status` in `src/client/types.ts`. -/
inductive DVStatusKind where
  | RUNNING
  | FINISHED
  | FAILED
  | CANCELED
deriving DecidableEq, Repr

/-- Response of `getDVQueryStatus` (`DVQueryStatus` in `src/client/types.ts`). -/
structure DVQueryStatus where
  queryId : String
  status : DVStatusKind
  progressStatus : Option Nat
  responseError : Option String
deriving DecidableEq, Repr

/-- The local structural type of the poll variable in `handleHashLookup`
(line 100: `{ status: string; responseError?: string }`) — the two fields of
a `DVQueryStatus` that the orchestrator reads. -/
structure StatusView where
  status : DVStatusKind
  responseError : Option String
deriving DecidableEq, Repr

/-- Structural narrowing of a `DVQueryStatus` to the fields the poll loop
uses (TypeScript assigns the full object to the narrower local type). -/
def DVQueryStatus.view (s : DVQueryStatus) : StatusView :=
  ⟨s.status, s.responseError⟩

/-- Pagination block of `PaginatedResponse` in `src/client/types.ts`. -/
structure Pagination where
  nextCursor : Option String
  totalItems : Option Nat
deriving DecidableEq, Repr

/-- `PaginatedResponse<T>` of `src/client/types.ts`. -/
structure PaginatedResponse (α : Type) where
  data : List α
  pagination : Option Pagination
deriving DecidableEq, Repr

/-- `DVEvent` of `src/client/types.ts`, plus the dynamically-read `user`
field accessed by `summarizeHashEvent` (events are handled as
`Record<string, any>` there). -/
structure DVEvent where
  id : String
  eventType : String
  eventTime : String
  agentId : String
  agentName : String
  processName : String
  processImagePath : Option String
  processCommandLine : Option String
  processUser : Option String
  parentProcessName : Option String
  srcIp : Option String
  dstIp : Option String
  dstPort : Option Nat
  filePath : Option String
  sha1 : Option String
  sha256 : Option String
  registryPath : Option String
  registryValue : Option String
  dnsRequest : Option String
  url : Option String
  user : Option String
deriving DecidableEq, Repr

/-! ## Bounded Request Executor (`request` in `src/client/rest.ts`) -/

/-- `TIMEOUT_MS` of `src/client/rest.ts`. -/
def TIMEOUT_MS : Nat := 30000

/-- Outcome of the single `fetch(...)` call inside `request`, as produced by
the network: either an HTTP response (status, status text, the body's text
rendering, and the result of parsing the body as JSON into the caller's
expected shape — parsing itself may throw), or a rejection of the `fetch`
promise with a thrown value (an abort shows up here as an `Error` whose
`name` is `"AbortError"`).  The request's URL, method, body and headers are
absorbed into this oracle: no claim concerns them. -/
inductive FetchOutcome (β : Type) where
  | response (status : Nat) (statusText : String) (bodyText : String)
      (jsonResult : Except JsThrown β)
  | fetchThrow (e : JsThrown)

/-- The web platform's `Response.ok`: status in the inclusive range 200–299. -/
def responseOk (status : Nat) : Bool :=
  decide (200 ≤ status) && decide (status ≤ 299)

/-- Modelled from the spec: `sanitizeError` lives in `src/utils.ts`, which is
not among the provided sources.  The spec (§4.1, §7) says transport and other
errors surface as a short sanitized message with lower-level detail stripped;
it is modelled as surfacing the thrown value's message rendering. -/
def sanitizeError (e : JsThrown) : String :=
  jsMessage e

/-- Mirrors `error instanceof Error && error.name === "AbortError"`
(`src/client/rest.ts` line 45). -/
def isAbortError : JsThrown → Bool
  | .error e => e.name == "AbortError"
  | .other _ => false

/-- The `try`-block of `request` (`src/client/rest.ts` lines 25–43): await
the fetch, throw an `HTTP <status>: <statusText> - <body>` error on a
non-2xx response, otherwise return the parsed JSON body (whose parsing may
itself throw). -/
def requestTry {β : Type} (o : FetchOutcome β) : Except JsThrown β :=
  match o with
  | .fetchThrow e => Except.error e
  | .response status statusText bodyText jsonResult =>
    if !(responseOk status) then
      Except.error (JsThrown.error
        ⟨"Error", "HTTP " ++ toString status ++ ": " ++ statusText ++ " - " ++ bodyText⟩)
    else jsonResult

/-- Observable resource events of one `request` call: the `setTimeout` that
arms the abort timer, the `fetch` call, and the `clearTimeout` in the
`finally` block. -/
inductive ReqEvent where
  | setTimer
  | fetchCall
  | clearTimer
deriving DecidableEq, Repr

/-- One full run of `request` (`src/client/rest.ts` lines 15–52): the timer
is armed, the `try` block runs, the `catch` block rewrites an abort into a
timeout `Error` and any other failure into a sanitized `Error`, and — since
`finally` executes on every exit path, normal or thrown — each branch's
event list ends with `clearTimer`.  The first component is the value
returned or the `Error` thrown; the second is the resource-event trace. -/
def requestRun {β : Type} (o : FetchOutcome β) : Except JsError β × List ReqEvent :=
  match requestTry o with
  | Except.ok v =>
      (Except.ok v, [ReqEvent.setTimer, ReqEvent.fetchCall, ReqEvent.clearTimer])
  | Except.error err =>
      if isAbortError err then
        (Except.error ⟨"Error", "Request timeout after " ++ toString TIMEOUT_MS ++ "ms"⟩,
          [ReqEvent.setTimer, ReqEvent.fetchCall, ReqEvent.clearTimer])
      else
        (Except.error ⟨"Error", sanitizeError err⟩,
          [ReqEvent.setTimer, ReqEvent.fetchCall, ReqEvent.clearTimer])

/-- The value/error behaviour of `request`. -/
def request {β : Type} (o : FetchOutcome β) : Except JsError β :=
  (requestRun o).1

/-- The resource-event trace of `request`. -/
def requestEvents {β : Type} (o : FetchOutcome β) : List ReqEvent :=
  (requestRun o).2

/-! ## Tool results (the MCP content shape returned by `handleHashLookup`) -/

/-- One `{ type: "text", text: ... }` content item. -/
structure ContentItem where
  type : String
  text : String
deriving DecidableEq, Repr

/-- The handler's return shape `{ content, isError? }`; a JavaScript result
without the `isError` key is modelled with `isError = false` (both are falsy
to the caller). -/
structure ToolResult where
  content : List ContentItem
  isError : Bool
deriving DecidableEq, Repr

/-- A result with one text item and no error flag. -/
def textResult (s : String) : ToolResult :=
  ⟨[⟨"text", s⟩], false⟩

/-- A result with one text item and `isError: true`. -/
def errorResult (s : String) : ToolResult :=
  ⟨[⟨"text", s⟩], true⟩

/-! ## Formatting helpers used by `summarizeHashEvent` -/

/-- Modelled from the spec: `formatTimeAgo` lives in `src/utils.ts`, which is
not among the provided sources; the spec (§1) classes it as an out-of-scope
text-formatting helper.  It is modelled as some fixed rendering of the
timestamp; no claim depends on its output. -/
def formatTimeAgo (t : String) : String :=
  t

/-- Modelled from the spec: `truncatePath` lives in `src/utils.ts`, which is
not among the provided sources; the spec (§1) classes it as an out-of-scope
truncation helper.  Modelled as truncation to the first `n` characters; no
claim depends on its output. -/
def truncatePath (p : String) (n : Nat) : String :=
  p.take n

/-- JavaScript `a || b` on an optional string: `a` when present and
non-empty (truthy), else `b`. -/
def strOr (a : Option String) (b : String) : String :=
  match a with
  | some s => if s = "" then b else s
  | none => b

/-- `summarizeHashEvent` of `src/tools/hash.ts` (lines 11–24). -/
def summarizeHashEvent (e : DVEvent) : String :=
  let time := if e.eventTime = "" then "unknown" else formatTimeAgo e.eventTime
  let etype := if e.eventType = "" then "Unknown" else e.eventType
  let process := if e.processName = "" then "N/A" else e.processName
  let agent := if e.agentName = "" then "Unknown" else e.agentName
  let user := strOr e.processUser (strOr e.user "")
  let d1 := match e.filePath with
    | some p => if p = "" then "" else " | " ++ truncatePath p 60
    | none => ""
  let d2 := match e.processCommandLine with
    | some c => if c = "" then "" else " | cmd: " ++ c.take 80
    | none => ""
  let d3 := if user = "" then "" else " | " ++ user
  "• " ++ agent ++ " | " ++ etype ++ " | " ++ process ++ " | " ++ time ++ d1 ++ d2 ++ d3

/-! ## The hash-lookup orchestrator (`handleHashLookup` in `src/tools/hash.ts`) -/

/-- Hexadecimal character class of the regex `[a-fA-F0-9]`. -/
def isHexChar (c : Char) : Bool :=
  ('a' ≤ c && c ≤ 'f') || ('A' ≤ c && c ≤ 'F') || ('0' ≤ c && c ≤ '9')

/-- Mirrors `/^[a-fA-F0-9]+$/.test(hash)` (`src/tools/hash.ts` line 42):
nonempty and every character hexadecimal. -/
def isHexOnly (s : String) : Bool :=
  decide (s.length ≠ 0) && s.data.all isHexChar

/-- `hashLength === 64 ? "SHA256" : "SHA1"` (`src/tools/hash.ts` line 54). -/
def hashFieldOf (hash : String) : String :=
  if hash.length = 64 then "SHA256" else "SHA1"

/-- The Deep-Visibility query string built at `src/tools/hash.ts` line 55. -/
def dvQueryOf (hash : String) : String :=
  hashFieldOf hash ++ " = \"" ++ hash ++ "\""

/-- Remote behaviour of the three REST-client functions as seen by one
invocation of `handleHashLookup`.  Each function is indexed by the calls the
handler makes to it (0-based call index) and by the request's identifying
argument; the outcome is the value returned, or the value the promise
rejected with.  (`createDVQuery` is keyed by the query string it is given,
`getDVQueryStatus`/`getDVEvents` by the `queryId`; `getDVEvents` is always
called with `limit: 50`, so the limit is not a key.) -/
structure Oracle where
  createResults : String → Nat → Except JsThrown DVQueryResponse
  statusResults : String → Nat → Except JsThrown DVQueryStatus
  eventsResults : String → Nat → Except JsThrown (PaginatedResponse DVEvent)

/-- Result of one bounded 409-retry loop (the creation loop at
`src/tools/hash.ts` lines 66–83 and the fetch loop at lines 137–153):
either the awaited value together with the number of calls made, the thrown
value that escaped the loop with the number of calls made, or a normal loop
exit with the result variable still `undefined`. -/
inductive LoopResult (α : Type) where
  | success (v : α) (calls : Nat)
  | thrown (e : JsThrown) (calls : Nat)
  | noResult (calls : Nat)
deriving DecidableEq, Repr

/-- Number of calls a finished retry loop issued. -/
def LoopResult.callCount {α : Type} : LoopResult α → Nat
  | .success _ c => c
  | .thrown _ c => c
  | .noResult c => c

/-- The 409-retry loop shared in shape by job creation and result fetch:

```
while (attempts < maxRetries) {
  try { v = await f(); break; }
  catch (e) {
    if (msg(e).includes("409") && attempts < maxRetries - 1) {
      attempts++; await delay; continue;
    }
    throw e;
  }
}
```

translated with `fuel = maxRetries - attempts`, which strictly decreases on
every `continue`.  The loop guard `attempts < maxRetries` is `0 < fuel`
(the `fuel = 0` pattern is the guard failing, leaving the result variable
unset), and the retry condition `attempts < maxRetries - 1` is `0 < fuel'`
where `fuel = fuel' + 1`.  `calls` counts the `f` calls already made and
indexes the oracle. -/
def retryAux {α : Type} (f : Nat → Except JsThrown α) : Nat → Nat → LoopResult α
  | calls, 0 => LoopResult.noResult calls
  | calls, fuel + 1 =>
    match f calls with
    | Except.ok v => LoopResult.success v (calls + 1)
    | Except.error e =>
      if includes409 (jsMessage e) && decide (0 < fuel) then
        retryAux f (calls + 1) fuel
      else
        LoopResult.thrown e (calls + 1)

/-- The creation retry loop, `maxCreateRetries = 6`
(`src/tools/hash.ts` lines 62–83). -/
def createLoop (f : Nat → Except JsThrown DVQueryResponse) : LoopResult DVQueryResponse :=
  retryAux f 0 6

/-- The events fetch retry loop, `maxFetchRetries = 5`
(`src/tools/hash.ts` lines 133–153). -/
def fetchLoop (f : Nat → Except JsThrown (PaginatedResponse DVEvent)) :
    LoopResult (PaginatedResponse DVEvent) :=
  retryAux f 0 5

/-- Result of the poll loop: the final value of the `status` variable and
the number of status calls made, or the thrown value of a failed status
call (which `handleHashLookup` does not catch locally) with the number of
calls made. -/
inductive PollResult where
  | done (st : StatusView) (calls : Nat)
  | thrown (e : JsThrown) (calls : Nat)
deriving DecidableEq, Repr

/-- Number of status calls the poll loop issued. -/
def PollResult.callCount : PollResult → Nat
  | .done _ c => c
  | .thrown _ c => c

/-- The status poll loop (`src/tools/hash.ts` lines 97–107):

```
while (attempts < maxAttempts) {
  await delay(1000);
  status = await getDVQueryStatus(queryId);
  if (status.status !== "RUNNING") break;
  attempts++;
}
```

translated with `fuel = maxAttempts - attempts` (the counter increases on
every iteration that does not `break`).  `st` is the loop-carried `status`
variable, `calls` the number of status calls already made. -/
def pollAux (f : Nat → Except JsThrown DVQueryStatus) : StatusView → Nat → Nat → PollResult
  | st, calls, 0 => PollResult.done st calls
  | _, calls, fuel + 1 =>
    match f calls with
    | Except.error e => PollResult.thrown e (calls + 1)
    | Except.ok s2 =>
      if s2.status ≠ DVStatusKind.RUNNING then PollResult.done s2.view (calls + 1)
      else pollAux f s2.view (calls + 1) fuel

/-- The poll loop as run by the handler: initial status `{status: "RUNNING"}`
(line 100), `maxAttempts = 30` (line 99). -/
def pollLoop (f : Nat → Except JsThrown DVQueryStatus) : PollResult :=
  pollAux f ⟨DVStatusKind.RUNNING, none⟩ 0 30

/-- Counts of the REST calls one invocation issued, reported alongside the
result for the temporal claims. -/
structure Trace where
  createCalls : Nat
  statusCalls : Nat
  fetchCalls : Nat
deriving DecidableEq, Repr

/-- `status.responseError || "Unknown error"` (`src/tools/hash.ts` line 114). -/
def failDetail (responseError : Option String) : String :=
  strOr responseError "Unknown error"

/-- The per-event pagination footer (`src/tools/hash.ts` lines 181–183):
present only when `events.pagination?.nextCursor` is truthy. -/
def footerOf (queryId : String) (events : PaginatedResponse DVEvent) : String :=
  match events.pagination with
  | some pg =>
    match pg.nextCursor with
    | some cur =>
      if cur = "" then ""
      else "\n\n[More results - use s1_dv_get_events with queryId: " ++ queryId ++
        ", cursor: " ++ cur ++ "]"
    | none => ""
  | none => ""

/-- The non-empty results rendering (`src/tools/hash.ts` lines 177–192):
agent deduplication via a `Set` (count of distinct agent names), header,
per-event summary lines joined by newlines, optional pagination footer. -/
def summaryResult (hashField hash queryId : String) (events : PaginatedResponse DVEvent) :
    ToolResult :=
  let agentCount := ((events.data.map fun e =>
    if e.agentName = "" then "Unknown" else e.agentName).dedup).length
  let header := "Hash " ++ hashField ++ " " ++ hash ++ "\nSeen on " ++
    toString agentCount ++ " endpoint(s) | " ++ toString events.data.length ++
    " event(s) in last 14 days:\n\n"
  let summary := String.intercalate "\n" (events.data.map summarizeHashEvent)
  textResult (header ++ summary ++ footerOf queryId events)

/-- The body of `handleHashLookup` after input validation
(`src/tools/hash.ts` lines 54–192): create with 409 retry, poll, classify
the final status, fetch with 409 retry, render.  `Except.error` is a value
thrown out of the body (to be caught by the surrounding `try`/`catch`).
The second component counts the REST calls issued. -/
def runLifecycle (o : Oracle) (hashField hash : String) :
    Except JsThrown ToolResult × Trace :=
  match createLoop (o.createResults (dvQueryOf hash)) with
  | LoopResult.thrown e c => (Except.error e, ⟨c, 0, 0⟩)
  | LoopResult.noResult c =>
    (Except.ok (errorResult
      "DV query slot busy - another query is still processing. Try again shortly."),
      ⟨c, 0, 0⟩)
  | LoopResult.success r c =>
    match pollLoop (o.statusResults r.queryId) with
    | PollResult.thrown e pc => (Except.error e, ⟨c, pc, 0⟩)
    | PollResult.done st pc =>
      if st.status = DVStatusKind.FAILED then
        (Except.ok (errorResult ("DV hash query failed: " ++ failDetail st.responseError)),
          ⟨c, pc, 0⟩)
      else if st.status = DVStatusKind.RUNNING then
        (Except.ok (textResult ("Query still running after 30s. Use s1_dv_get_events with queryId: " ++ r.queryId)),
          ⟨c, pc, 0⟩)
      else
        match fetchLoop (o.eventsResults r.queryId) with
        | LoopResult.thrown e fc => (Except.error e, ⟨c, pc, fc⟩)
        | LoopResult.noResult fc =>
          (Except.ok (textResult ("Query completed but events not available after retries. Use s1_dv_get_events with queryId: " ++ r.queryId)),
            ⟨c, pc, fc⟩)
        | LoopResult.success events fc =>
          if events.data.length = 0 then
            (Except.ok (textResult ("No activity found for " ++ hashField ++ " " ++ hash ++ " in the last 14 days.")),
              ⟨c, pc, fc⟩)
          else
            (Except.ok (summaryResult hashField hash r.queryId events), ⟨c, pc, fc⟩)

/-- The `try`-block of `handleHashLookup` (`src/tools/hash.ts` lines 29–192):
reject a hash whose length is neither 40 nor 64, then reject a non-hex hash,
then run the job lifecycle. -/
def handleBody (hash : String) (o : Oracle) : Except JsThrown ToolResult × Trace :=
  if hash.length ≠ 40 ∧ hash.length ≠ 64 then
    (Except.ok (errorResult
      ("Invalid hash format. Expected SHA1 (40 chars) or SHA256 (64 chars), got " ++
        toString hash.length ++ " chars")),
      ⟨0, 0, 0⟩)
  else if !(isHexOnly hash) then
    (Except.ok (errorResult "Invalid hash format. Hash must be hexadecimal characters only."),
      ⟨0, 0, 0⟩)
  else
    runLifecycle o (hashFieldOf hash) hash

/-- `handleHashLookup` (`src/tools/hash.ts` lines 26–204): the body wrapped
in the outer `try`/`catch` that converts any thrown value into an
`isError: true` text result.  The first component is the value the handler
resolves with — the function never rejects — and the second counts the REST
calls the invocation issued. -/
def handleHashLookup (hash : String) (o : Oracle) : ToolResult × Trace :=
  match handleBody hash o with
  | (Except.ok r, t) => (r, t)
  | (Except.error e, t) =>
    (errorResult ("Error hunting hash: " ++ jsMessage e), t)

/-! ## Shared lemmas about the loops and the handler's structure -/

lemma retryAux_calls_ge {α : Type} (f : Nat → Except JsThrown α) :
    ∀ (fuel calls : Nat), calls ≤ (retryAux f calls fuel).callCount := by
  intro fuel
  induction fuel with
  | zero => intro calls; simp [retryAux, LoopResult.callCount]
  | succ n ih =>
    intro calls
    simp only [retryAux]
    split
    · simp [LoopResult.callCount]
    · split
      · exact le_trans (Nat.le_succ calls) (ih (calls + 1))
      · simp [LoopResult.callCount]

lemma retryAux_calls_pos {α : Type} (f : Nat → Except JsThrown α) (fuel calls : Nat)
    (h : 0 < fuel) : calls + 1 ≤ (retryAux f calls fuel).callCount := by
  rcases fuel with _ | n
  · omega
  · simp only [retryAux]
    split
    · simp [LoopResult.callCount]
    · split
      · exact retryAux_calls_ge f n (calls + 1)
      · simp [LoopResult.callCount]

lemma createLoop_first_ok (f : Nat → Except JsThrown DVQueryResponse)
    (r : DVQueryResponse) (h : f 0 = Except.ok r) :
    createLoop f = LoopResult.success r 1 := by
  simp [createLoop, retryAux, h]

lemma retryAux_fatal_at {α : Type} (f : Nat → Except JsThrown α) :
    ∀ (fuel j calls : Nat) (e : JsThrown), j < fuel →
    (∀ i, i < j → ∃ ei, f (calls + i) = Except.error ei ∧
      includes409 (jsMessage ei) = true) →
    f (calls + j) = Except.error e →
    includes409 (jsMessage e) = false →
    retryAux f calls fuel = LoopResult.thrown e (calls + j + 1) := by
  intro fuel
  induction fuel with
  | zero => intro j _ _ hj _ _ _; omega
  | succ n ih =>
    intro j calls e hj hprev he h409
    rcases j with _ | j'
    · rw [Nat.add_zero] at he
      simp [retryAux, he, h409]
    · obtain ⟨e0, he0, h4090⟩ := hprev 0 (Nat.succ_pos j')
      rw [Nat.add_zero] at he0
      have hn : 0 < n := by omega
      have hrec := ih j' (calls + 1) e (by omega)
        (fun i hi => by
          have := hprev (i + 1) (by omega)
          rwa [show calls + (i + 1) = calls + 1 + i by omega] at this)
        (by rwa [show calls + 1 + j' = calls + (j' + 1) by omega])
        h409
      have hcond : (includes409 (jsMessage e0) && decide (0 < n)) = true := by
        rw [h4090]
        simp [hn]
      have hstep : retryAux f calls (n + 1) = retryAux f (calls + 1) n := by
        simp [retryAux, he0, hcond]
      rw [hstep, hrec,
        show calls + 1 + j' + 1 = calls + (j' + 1) + 1 by omega]

lemma createLoop_fatal_at (f : Nat → Except JsThrown DVQueryResponse)
    (j : Nat) (e : JsThrown) (hj : j < 6)
    (hprev : ∀ i, i < j → ∃ ei, f i = Except.error ei ∧
      includes409 (jsMessage ei) = true)
    (he : f j = Except.error e)
    (h409 : includes409 (jsMessage e) = false) :
    createLoop f = LoopResult.thrown e (j + 1) := by
  have h := retryAux_fatal_at f 6 j 0 e hj
    (fun i hi => by simpa using hprev i hi)
    (by simpa using he) h409
  simpa [createLoop] using h

lemma fetchLoop_first_ok (f : Nat → Except JsThrown (PaginatedResponse DVEvent))
    (ev : PaginatedResponse DVEvent) (h : f 0 = Except.ok ev) :
    fetchLoop f = LoopResult.success ev 1 := by
  simp [fetchLoop, retryAux, h]

lemma pollAux_running (f : Nat → Except JsThrown DVQueryStatus) :
    ∀ (fuel calls : Nat) (st : StatusView), st.status = DVStatusKind.RUNNING →
    (∀ i, i < fuel → ∃ s, f (calls + i) = Except.ok s ∧ s.status = DVStatusKind.RUNNING) →
    ∃ st', pollAux f st calls fuel = PollResult.done st' (calls + fuel) ∧
      st'.status = DVStatusKind.RUNNING := by
  intro fuel
  induction fuel with
  | zero =>
    intro calls st hst _
    exact ⟨st, by simp [pollAux], hst⟩
  | succ n ih =>
    intro calls st hst h
    obtain ⟨s, hs, hrun⟩ := h 0 (Nat.succ_pos n)
    rw [Nat.add_zero] at hs
    have hview : s.view.status = DVStatusKind.RUNNING := hrun
    obtain ⟨st', hrec, hst'⟩ := ih (calls + 1) s.view hview
      (fun i hi => by
        have := h (i + 1) (by omega)
        rwa [show calls + (i + 1) = calls + 1 + i by omega] at this)
    refine ⟨st', ?_, hst'⟩
    simp only [pollAux, hs, hrun]
    simpa [show calls + 1 + n = calls + (n + 1) by omega] using hrec

lemma pollAux_terminal (f : Nat → Except JsThrown DVQueryStatus) :
    ∀ (fuel j calls : Nat) (st : StatusView) (sj : DVQueryStatus), j < fuel →
    (∀ i, i < j → ∃ s, f (calls + i) = Except.ok s ∧ s.status = DVStatusKind.RUNNING) →
    f (calls + j) = Except.ok sj → sj.status ≠ DVStatusKind.RUNNING →
    pollAux f st calls fuel = PollResult.done sj.view (calls + j + 1) := by
  intro fuel
  induction fuel with
  | zero => intro j _ _ _ hj; omega
  | succ n ih =>
    intro j calls st sj hj h hterm hne
    rcases j with _ | j'
    · rw [Nat.add_zero] at hterm
      simp [pollAux, hterm, hne]
    · obtain ⟨s, hs, hrun⟩ := h 0 (Nat.succ_pos j')
      rw [Nat.add_zero] at hs
      have hrec := ih j' (calls + 1) s.view sj (by omega)
        (fun i hi => by
          have := h (i + 1) (by omega)
          rwa [show calls + (i + 1) = calls + 1 + i by omega] at this)
        (by rwa [show calls + 1 + j' = calls + (j' + 1) by omega])
        hne
      simp only [pollAux, hs, hrun]
      simpa [show calls + 1 + j' + 1 = calls + (j' + 1) + 1 by omega] using hrec

lemma handleBody_valid (hash : String) (o : Oracle)
    (hlen : hash.length = 40 ∨ hash.length = 64) (hhex : isHexOnly hash = true) :
    handleBody hash o = runLifecycle o (hashFieldOf hash) hash := by
  have h1 : ¬(hash.length ≠ 40 ∧ hash.length ≠ 64) := by tauto
  simp [handleBody, h1, hhex]

lemma handleHashLookup_trace (hash : String) (o : Oracle) :
    (handleHashLookup hash o).2 = (handleBody hash o).2 := by
  unfold handleHashLookup
  rcases h : handleBody hash o with ⟨r | e, t⟩ <;> simp [h]

lemma handleHashLookup_of_ok (hash : String) (o : Oracle) (r : ToolResult) (t : Trace)
    (h : handleBody hash o = (Except.ok r, t)) : handleHashLookup hash o = (r, t) := by
  unfold handleHashLookup
  rw [h]

lemma handleHashLookup_of_thrown (hash : String) (o : Oracle) (e : JsThrown) (t : Trace)
    (h : handleBody hash o = (Except.error e, t)) :
    handleHashLookup hash o = (errorResult ("Error hunting hash: " ++ jsMessage e), t) := by
  unfold handleHashLookup
  rw [h]

lemma runLifecycle_statusCalls (o : Oracle) (hf hash : String) (r : DVQueryResponse) (c : Nat)
    (hcreate : createLoop (o.createResults (dvQueryOf hash)) = LoopResult.success r c) :
    (runLifecycle o hf hash).2.statusCalls =
      (pollLoop (o.statusResults r.queryId)).callCount := by
  simp only [runLifecycle, hcreate]
  rcases hp : pollLoop (o.statusResults r.queryId) with ⟨st, pc⟩ | ⟨e, pc⟩ <;>
    simp only [hp, PollResult.callCount]
  · split
    · rfl
    · split
      · rfl
      · rcases hfe : fetchLoop (o.eventsResults r.queryId) with ⟨ev, fc⟩ | ⟨e2, fc⟩ | fc <;>
          (simp only [hfe]; try rfl)
        try (split <;> rfl)

lemma runLifecycle_fetch_trace (o : Oracle) (hf hash : String) (r : DVQueryResponse)
    (c : Nat) (st : StatusView) (pc : Nat)
    (hcreate : createLoop (o.createResults (dvQueryOf hash)) = LoopResult.success r c)
    (hpoll : pollLoop (o.statusResults r.queryId) = PollResult.done st pc)
    (h1 : st.status ≠ DVStatusKind.FAILED) (h2 : st.status ≠ DVStatusKind.RUNNING) :
    (runLifecycle o hf hash).2 =
      ⟨c, pc, (fetchLoop (o.eventsResults r.queryId)).callCount⟩ := by
  simp only [runLifecycle, hcreate, hpoll, if_neg h1, if_neg h2]
  rcases hfe : fetchLoop (o.eventsResults r.queryId) with ⟨ev, fc⟩ | ⟨e2, fc⟩ | fc <;>
    (simp only [hfe, LoopResult.callCount]; try (split <;> rfl))

lemma runLifecycle_empty_results (o : Oracle) (hf hash : String) (r : DVQueryResponse)
    (c : Nat) (st : StatusView) (pc : Nat) (ev : PaginatedResponse DVEvent) (fc : Nat)
    (hcreate : createLoop (o.createResults (dvQueryOf hash)) = LoopResult.success r c)
    (hpoll : pollLoop (o.statusResults r.queryId) = PollResult.done st pc)
    (h1 : st.status ≠ DVStatusKind.FAILED) (h2 : st.status ≠ DVStatusKind.RUNNING)
    (hfetch : fetchLoop (o.eventsResults r.queryId) = LoopResult.success ev fc)
    (hempty : ev.data = []) :
    runLifecycle o hf hash =
      (Except.ok (textResult ("No activity found for " ++ hf ++ " " ++ hash ++ " in the last 14 days.")),
        ⟨c, pc, fc⟩) := by
  simp only [runLifecycle, hcreate, hpoll, if_neg h1, if_neg h2, hfetch, hempty,
    List.length_nil]
  simp

/-! ## Concrete runs used by the claim theorems -/

/-- A well-formed SHA256 input (64 hex characters). -/
def sha256Sample : String :=
  "aaaaaaaaaaaaaaaaaaaaaaaaaaaaaaaaaaaaaaaaaaaaaaaaaaaaaaaaaaaaaaaa"

/-- The HTTP 409 error the REST client surfaces when the platform's
concurrent-query slot is busy. -/
def slotBusy409 : JsThrown :=
  JsThrown.error ⟨"Error", "HTTP 409: Conflict - slot busy"⟩

/-- A remote platform on which every job-creation attempt fails with the
slot-busy 409 condition. -/
def slotBusyOracle : Oracle where
  createResults := fun _ _ => Except.error slotBusy409
  statusResults := fun _ _ => Except.ok ⟨"q1", DVStatusKind.FINISHED, none, none⟩
  eventsResults := fun _ _ => Except.ok ⟨[], none⟩

/-- A remote platform on which creation succeeds at once (`queryId = "q1"`),
the first poll reports `FINISHED`, and every events fetch fails with the
not-yet-queryable 409 condition. -/
def fetchBusyOracle : Oracle where
  createResults := fun _ _ => Except.ok ⟨"q1", "RUNNING"⟩
  statusResults := fun _ _ => Except.ok ⟨"q1", DVStatusKind.FINISHED, none, none⟩
  eventsResults := fun _ _ =>
    Except.error (JsThrown.error ⟨"Error", "HTTP 409: Conflict - events not ready"⟩)

/-- A remote platform on which creation succeeds at once and the very first
poll reports `CANCELED`; the events endpoint would answer with an empty
page. -/
def canceledOracle : Oracle where
  createResults := fun _ _ => Except.ok ⟨"q1", "RUNNING"⟩
  statusResults := fun _ _ => Except.ok ⟨"q1", DVStatusKind.CANCELED, none, none⟩
  eventsResults := fun _ _ => Except.ok ⟨[], none⟩

/-! ## Claim theorems -/

/-- Claim C1 (code behaviour at the claimed scenario).  When all six
job-creation attempts fail with the slot-busy 409 condition, the handler
makes exactly 6 creation calls and then produces the generic
`Error hunting hash: ...` error result built from the last 409 error — the
final attempt's failure is rethrown because the retry guard
`createAttempts < maxCreateRetries - 1` is false on the 6th attempt, so the
dedicated `DV query slot busy` soft outcome of lines 85–95 (which the claim
asserts) is never produced. -/
theorem create_exhaustion_propagates_last_error :
    (handleHashLookup sha256Sample slotBusyOracle).1 =
      errorResult "Error hunting hash: HTTP 409: Conflict - slot busy"
    ∧ (handleHashLookup sha256Sample slotBusyOracle).2 = ⟨6, 0, 0⟩
    ∧ (handleHashLookup sha256Sample slotBusyOracle).1 ≠
      errorResult "DV query slot busy - another query is still processing. Try again shortly." :=
  ⟨rfl, rfl, by decide⟩

/-- Claim C2 (code behaviour at the claimed scenario).  When the job
finishes and all five result-fetch attempts fail with the not-yet-queryable
409 condition, the handler makes exactly 5 fetch calls and then produces
the generic `Error hunting hash: ...` error result built from the last 409
error — the final attempt's failure is rethrown because the retry guard
`fetchAttempts < maxFetchRetries - 1` is false on the 5th attempt, so the
dedicated `Query completed but events not available after retries` soft
outcome of lines 155–164 (which the claim asserts, with the queryId) is
never produced. -/
theorem fetch_exhaustion_propagates_last_error :
    (handleHashLookup sha256Sample fetchBusyOracle).1 =
      errorResult "Error hunting hash: HTTP 409: Conflict - events not ready"
    ∧ (handleHashLookup sha256Sample fetchBusyOracle).2 = ⟨1, 1, 5⟩
    ∧ (handleHashLookup sha256Sample fetchBusyOracle).1 ≠
      textResult "Query completed but events not available after retries. Use s1_dv_get_events with queryId: q1" :=
  ⟨rfl, rfl, by decide⟩

/-- Claim C3, counterexample.  A polling sequence whose first non-`RUNNING`
status is `CANCELED` does enter the fetch phase: with the first poll
reporting `CANCELED`, one events-fetch call is made (the claim asserts
zero) and the invocation terminates through the ordinary results path, not
through a dedicated canceled-terminal outcome. -/
theorem canceled_first_status_enters_fetch :
    (handleHashLookup sha256Sample canceledOracle).2 = ⟨1, 1, 1⟩
    ∧ (handleHashLookup sha256Sample canceledOracle).1 =
      textResult ("No activity found for SHA256 " ++ sha256Sample ++ " in the last 14 days.") :=
  ⟨rfl, rfl⟩

/-- Claim C3, amended.  When the first non-`RUNNING` status observed is
`CANCELED` (at 0-based poll index `j`, within the 30-poll budget), the poll
loop stops immediately — exactly `j + 1` status calls are made, with no
retry — but the invocation then proceeds to the fetch phase exactly as for
`FINISHED` (at least one events-fetch call is made): the code only treats
`FAILED` and a still-`RUNNING` budget exhaustion as bypassing the fetch. -/
theorem canceled_stops_polling_but_fetches
    (hash : String) (o : Oracle) (r : DVQueryResponse) (c j : Nat)
    (ss : Nat → DVQueryStatus)
    (hlen : hash.length = 40 ∨ hash.length = 64)
    (hhex : isHexOnly hash = true)
    (hcreate : createLoop (o.createResults (dvQueryOf hash)) = LoopResult.success r c)
    (hss : ∀ i, o.statusResults r.queryId i = Except.ok (ss i))
    (hj : j < 30)
    (hrun : ∀ i, i < j → (ss i).status = DVStatusKind.RUNNING)
    (hcan : (ss j).status = DVStatusKind.CANCELED) :
    (handleHashLookup hash o).2.statusCalls = j + 1
    ∧ 1 ≤ (handleHashLookup hash o).2.fetchCalls := by
  have hpoll : pollLoop (o.statusResults r.queryId) =
      PollResult.done (ss j).view (j + 1) := by
    have := pollAux_terminal (o.statusResults r.queryId) 30 j 0
      ⟨DVStatusKind.RUNNING, none⟩ (ss j) hj
      (fun i hi => ⟨ss i, by simpa using hss i, hrun i hi⟩)
      (by simpa using hss j)
      (by rw [hcan]; intro hcontra; exact DVStatusKind.noConfusion hcontra)
    simpa [pollLoop] using this
  have hview : ((ss j).view).status = DVStatusKind.CANCELED := hcan
  have htrace : (handleHashLookup hash o).2 =
      ⟨c, j + 1, (fetchLoop (o.eventsResults r.queryId)).callCount⟩ := by
    rw [handleHashLookup_trace, handleBody_valid hash o hlen hhex]
    exact runLifecycle_fetch_trace o (hashFieldOf hash) hash r c ((ss j).view) (j + 1)
      hcreate hpoll
      (by rw [hview]; intro hcontra; exact DVStatusKind.noConfusion hcontra)
      (by rw [hview]; intro hcontra; exact DVStatusKind.noConfusion hcontra)
  constructor
  · rw [htrace]
  · rw [htrace]
    exact retryAux_calls_pos (o.eventsResults r.queryId) 5 0 (by omega)

/-- Claim C3, amended, witness: the counterexample run instantiates the
amended statement at `j = 0`. -/
theorem canceled_stops_polling_but_fetches_witness :
    (handleHashLookup sha256Sample canceledOracle).2.statusCalls = 1
    ∧ 1 ≤ (handleHashLookup sha256Sample canceledOracle).2.fetchCalls := by
  have h := canceled_stops_polling_but_fetches sha256Sample canceledOracle
    ⟨"q1", "RUNNING"⟩ 1 0 (fun _ => ⟨"q1", DVStatusKind.CANCELED, none, none⟩)
    (Or.inr (by decide)) (by decide) rfl (fun _ => rfl) (by omega)
    (fun i hi => absurd hi (by omega)) rfl
  exact h

/-- Claim C4.  Given a creation that succeeded and a pure polling sequence
`ss`, the number of status calls the invocation issues is exactly the
(1-based) index `j + 1` of the first non-`RUNNING` status when one occurs
within the 30-poll budget, and exactly 30 when every status in the budget is
`RUNNING`; in particular no poll call is issued after a terminal status is
observed. -/
theorem poll_calls_equal_first_terminal_index
    (hash : String) (o : Oracle) (r : DVQueryResponse) (c : Nat)
    (ss : Nat → DVQueryStatus)
    (hlen : hash.length = 40 ∨ hash.length = 64)
    (hhex : isHexOnly hash = true)
    (hcreate : createLoop (o.createResults (dvQueryOf hash)) = LoopResult.success r c)
    (hss : ∀ i, o.statusResults r.queryId i = Except.ok (ss i)) :
    (∀ j, j < 30 → (∀ i, i < j → (ss i).status = DVStatusKind.RUNNING) →
      (ss j).status ≠ DVStatusKind.RUNNING →
      (handleHashLookup hash o).2.statusCalls = j + 1)
    ∧ ((∀ i, i < 30 → (ss i).status = DVStatusKind.RUNNING) →
      (handleHashLookup hash o).2.statusCalls = 30) := by
  have hbase : (handleHashLookup hash o).2.statusCalls =
      (pollLoop (o.statusResults r.queryId)).callCount := by
    rw [handleHashLookup_trace, handleBody_valid hash o hlen hhex]
    exact runLifecycle_statusCalls o (hashFieldOf hash) hash r c hcreate
  constructor
  · intro j hj hrun hterm
    have hpoll := pollAux_terminal (o.statusResults r.queryId) 30 j 0
      ⟨DVStatusKind.RUNNING, none⟩ (ss j) hj
      (fun i hi => ⟨ss i, by simpa using hss i, hrun i hi⟩)
      (by simpa using hss j) hterm
    rw [hbase]
    simp [pollLoop, hpoll, PollResult.callCount]
  · intro hrun
    obtain ⟨st', hdone, _⟩ := pollAux_running (o.statusResults r.queryId) 30 0
      ⟨DVStatusKind.RUNNING, none⟩ rfl
      (fun i hi => ⟨ss i, by simpa using hss i, hrun i hi⟩)
    rw [hbase]
    simp [pollLoop, hdone, PollResult.callCount]

/-- Statuses reported by `pollTwiceOracle`: `RUNNING` on the first poll,
`FINISHED` from the second on. -/
def pollTwiceStatuses : Nat → DVQueryStatus := fun i =>
  if i = 0 then ⟨"q1", DVStatusKind.RUNNING, some 10, none⟩
  else ⟨"q1", DVStatusKind.FINISHED, none, none⟩

/-- A remote platform whose job finishes at the second poll. -/
def pollTwiceOracle : Oracle where
  createResults := fun _ _ => Except.ok ⟨"q1", "RUNNING"⟩
  statusResults := fun _ i => Except.ok (pollTwiceStatuses i)
  eventsResults := fun _ _ => Except.ok ⟨[], none⟩

/-- Claim C4, witness: with the first terminal status at 0-based poll index
1, exactly 2 status calls are made. -/
theorem poll_calls_equal_first_terminal_index_witness :
    (handleHashLookup sha256Sample pollTwiceOracle).2.statusCalls = 2 := by
  have h := poll_calls_equal_first_terminal_index sha256Sample pollTwiceOracle
    ⟨"q1", "RUNNING"⟩ 1 pollTwiceStatuses
    (Or.inr (by decide)) (by decide) rfl (fun _ => rfl)
  exact h.1 1 (by omega)
    (fun i hi => by
      have h0 : i = 0 := by omega
      subst h0
      rfl)
    (by decide)

/-- Claim C5.  A creation attempt that fails with an error whose message
does not contain `"409"` aborts the invocation at once, regardless of the
remaining retry budget: for any attempt index `k` (0-based, within the
budget of 6) whose preceding `k` attempts all failed with 409 errors,
a non-409 failure at attempt `k` ends the loop with exactly `k + 1`
creation calls — zero further retries — no status or fetch call follows,
and the invocation terminates with that error's message wrapped by the
outer catch into an error-flagged result. -/
theorem nonbusy_create_error_is_fatal_immediately
    (hash : String) (o : Oracle) (e : JsThrown) (k : Nat)
    (hlen : hash.length = 40 ∨ hash.length = 64)
    (hhex : isHexOnly hash = true)
    (hk : k < 6)
    (hprev : ∀ i, i < k → ∃ ei, o.createResults (dvQueryOf hash) i = Except.error ei ∧
      includes409 (jsMessage ei) = true)
    (he : o.createResults (dvQueryOf hash) k = Except.error e)
    (h409 : includes409 (jsMessage e) = false) :
    (handleHashLookup hash o).1 = errorResult ("Error hunting hash: " ++ jsMessage e)
    ∧ (handleHashLookup hash o).2 = ⟨k + 1, 0, 0⟩ := by
  have hcl : createLoop (o.createResults (dvQueryOf hash)) = LoopResult.thrown e (k + 1) :=
    createLoop_fatal_at _ k e hk hprev he h409
  have hrl : runLifecycle o (hashFieldOf hash) hash = (Except.error e, ⟨k + 1, 0, 0⟩) := by
    simp only [runLifecycle, hcl]
  have hb : handleBody hash o = (Except.error e, ⟨k + 1, 0, 0⟩) := by
    rw [handleBody_valid hash o hlen hhex, hrl]
  rw [handleHashLookup_of_thrown hash o e ⟨k + 1, 0, 0⟩ hb]
  exact ⟨rfl, rfl⟩

/-- A remote platform that rejects the first job-creation attempt with a
409 slot-busy error and every later attempt with a non-409 server error. -/
def busyThenFatalOracle : Oracle where
  createResults := fun _ i =>
    if i = 0 then Except.error (JsThrown.error ⟨"Error", "HTTP 409: Conflict - slot busy"⟩)
    else Except.error (JsThrown.error ⟨"Error", "HTTP 500: Internal Server Error - boom"⟩)
  statusResults := fun _ _ => Except.ok ⟨"q1", DVStatusKind.FINISHED, none, none⟩
  eventsResults := fun _ _ => Except.ok ⟨[], none⟩

/-- Claim C5, witness: after one 409 retry, an HTTP 500 failure on the
second creation attempt (`k = 1`, with 4 retries still in budget)
terminates the invocation after exactly 2 creation calls. -/
theorem nonbusy_create_error_is_fatal_immediately_witness :
    (handleHashLookup sha256Sample busyThenFatalOracle).1 =
      errorResult "Error hunting hash: HTTP 500: Internal Server Error - boom"
    ∧ (handleHashLookup sha256Sample busyThenFatalOracle).2 = ⟨2, 0, 0⟩ :=
  nonbusy_create_error_is_fatal_immediately sha256Sample busyThenFatalOracle
    (JsThrown.error ⟨"Error", "HTTP 500: Internal Server Error - boom"⟩) 1
    (Or.inr (by decide)) (by decide) (by omega)
    (fun i hi => ⟨JsThrown.error ⟨"Error", "HTTP 409: Conflict - slot busy"⟩,
      by
        have h0 : i = 0 := by omega
        subst h0
        rfl,
      by decide⟩)
    rfl (by decide)

/-- Claim C6.  When every one of the 30 polls reports `RUNNING`, the
invocation makes exactly 30 status calls and no events-fetch call, and
terminates with the `Query still running after 30s` outcome carrying the
queryId assigned at creation (and no error flag). -/
theorem all_running_polls_time_out
    (hash : String) (o : Oracle) (r : DVQueryResponse) (c : Nat)
    (hlen : hash.length = 40 ∨ hash.length = 64)
    (hhex : isHexOnly hash = true)
    (hcreate : createLoop (o.createResults (dvQueryOf hash)) = LoopResult.success r c)
    (hrun : ∀ i, i < 30 → ∃ s, o.statusResults r.queryId i = Except.ok s ∧
      s.status = DVStatusKind.RUNNING) :
    (handleHashLookup hash o).1 =
      textResult ("Query still running after 30s. Use s1_dv_get_events with queryId: " ++ r.queryId)
    ∧ (handleHashLookup hash o).2.statusCalls = 30
    ∧ (handleHashLookup hash o).2.fetchCalls = 0 := by
  obtain ⟨st', hdone, hst'⟩ := pollAux_running (o.statusResults r.queryId) 30 0
    ⟨DVStatusKind.RUNNING, none⟩ rfl (fun i hi => by simpa using hrun i hi)
  have hpoll : pollLoop (o.statusResults r.queryId) = PollResult.done st' 30 := by
    simpa [pollLoop] using hdone
  have hrl : runLifecycle o (hashFieldOf hash) hash =
      (Except.ok (textResult
        ("Query still running after 30s. Use s1_dv_get_events with queryId: " ++ r.queryId)),
        ⟨c, 30, 0⟩) := by
    simp only [runLifecycle, hcreate, hpoll]
    rw [if_neg (by rw [hst']; intro h; exact DVStatusKind.noConfusion h), if_pos hst']
  have hb : handleBody hash o =
      (Except.ok (textResult
        ("Query still running after 30s. Use s1_dv_get_events with queryId: " ++ r.queryId)),
        ⟨c, 30, 0⟩) := by
    rw [handleBody_valid hash o hlen hhex, hrl]
  rw [handleHashLookup_of_ok hash o _ _ hb]
  exact ⟨rfl, rfl, rfl⟩

/-- A remote platform whose job never leaves `RUNNING`. -/
def alwaysRunningOracle : Oracle where
  createResults := fun _ _ => Except.ok ⟨"q1", "RUNNING"⟩
  statusResults := fun _ _ => Except.ok ⟨"q1", DVStatusKind.RUNNING, some 50, none⟩
  eventsResults := fun _ _ => Except.ok ⟨[], none⟩

/-- Claim C6, witness: a never-finishing job yields the timed-out outcome
for `queryId = "q1"` after exactly 30 polls and no fetch. -/
theorem all_running_polls_time_out_witness :
    (handleHashLookup sha256Sample alwaysRunningOracle).1 =
      textResult "Query still running after 30s. Use s1_dv_get_events with queryId: q1"
    ∧ (handleHashLookup sha256Sample alwaysRunningOracle).2.statusCalls = 30
    ∧ (handleHashLookup sha256Sample alwaysRunningOracle).2.fetchCalls = 0 :=
  all_running_polls_time_out sha256Sample alwaysRunningOracle ⟨"q1", "RUNNING"⟩ 1
    (Or.inr (by decide)) (by decide) rfl
    (fun _ _ => ⟨⟨"q1", DVStatusKind.RUNNING, some 50, none⟩, rfl, rfl⟩)

/-- Claim C7.  Every failure of the bounded request executor is normalized
into one of three caller-distinguishable kinds: a 2xx response with a parse
succeeding returns the parsed body; a non-2xx response yields an `Error`
whose message is the `HTTP <status>: <statusText> - <body>` line carrying
the numeric status code and the response body text (the sanitizer passes
the message through); an abort (the 30-second bound elapsing) yields the
fixed `Request timeout after 30000ms` message; and any other failure —
including a 2xx body that fails to parse — yields an `Error` carrying the
sanitized message of the underlying failure. -/
theorem request_failure_taxonomy {β : Type} (status : Nat) (statusText bodyText : String)
    (js : Except JsThrown β) (v : β) (e : JsThrown) :
    (responseOk status = true →
      request (FetchOutcome.response status statusText bodyText (Except.ok v)) = Except.ok v)
    ∧ (responseOk status = false →
      request (FetchOutcome.response status statusText bodyText js) =
        Except.error ⟨"Error",
          "HTTP " ++ toString status ++ ": " ++ statusText ++ " - " ++ bodyText⟩)
    ∧ (responseOk status = true → ∀ pe, isAbortError pe = false →
      request (FetchOutcome.response status statusText bodyText (Except.error pe) :
          FetchOutcome β) =
        Except.error ⟨"Error", sanitizeError pe⟩)
    ∧ (isAbortError e = true →
      request (FetchOutcome.fetchThrow e : FetchOutcome β) =
        Except.error ⟨"Error", "Request timeout after " ++ toString TIMEOUT_MS ++ "ms"⟩)
    ∧ (isAbortError e = false →
      request (FetchOutcome.fetchThrow e : FetchOutcome β) =
        Except.error ⟨"Error", sanitizeError e⟩) := by
  refine ⟨?_, ?_, ?_, ?_, ?_⟩
  · intro h
    simp [request, requestRun, requestTry, h]
  · intro h
    simp [request, requestRun, requestTry, h, isAbortError, sanitizeError, jsMessage]
  · intro h pe hpe
    simp [request, requestRun, requestTry, h, hpe]
  · intro h
    simp [request, requestRun, requestTry, h]
  · intro h
    simp [request, requestRun, requestTry, h]

/-- Claim C7, witness: the four outcome kinds at concrete inputs. -/
theorem request_failure_taxonomy_witness :
    request (FetchOutcome.response 200 "OK" "\x7b\x7d" (Except.ok (5 : Nat))) = Except.ok 5
    ∧ request (FetchOutcome.response 409 "Conflict" "busy" (Except.ok (5 : Nat))) =
        Except.error ⟨"Error", "HTTP 409: Conflict - busy"⟩
    ∧ request (FetchOutcome.fetchThrow (JsThrown.error ⟨"AbortError", "aborted"⟩) :
        FetchOutcome Nat) =
        Except.error ⟨"Error", "Request timeout after 30000ms"⟩
    ∧ request (FetchOutcome.fetchThrow (JsThrown.error ⟨"Error", "ECONNRESET"⟩) :
        FetchOutcome Nat) =
        Except.error ⟨"Error", "ECONNRESET"⟩ := by
  have h1 := @request_failure_taxonomy Nat 200 "OK" "\x7b\x7d" (Except.ok 5) 5
    (JsThrown.error ⟨"AbortError", "aborted"⟩)
  have h2 := @request_failure_taxonomy Nat 409 "Conflict" "busy" (Except.ok 5) 5
    (JsThrown.error ⟨"Error", "ECONNRESET"⟩)
  exact ⟨h1.1 (by decide), h2.2.1 (by decide), h1.2.2.2.1 (by decide),
    h2.2.2.2.2 (by decide)⟩

/-- A remote platform whose finished job yields an empty result page. -/
def emptyResultsOracle : Oracle where
  createResults := fun _ _ => Except.ok ⟨"q1", "RUNNING"⟩
  statusResults := fun _ _ => Except.ok ⟨"q1", DVStatusKind.FINISHED, none, none⟩
  eventsResults := fun _ _ => Except.ok ⟨[], some ⟨none, some 0⟩⟩

/-- Claim C8.  When the fetch phase succeeds with a result page holding no
event records, the invocation terminates with the `No activity found`
message, without the error flag — and so is distinct from every
error-flagged result (in particular from every fetch-failure outcome, which
surfaces through the error-flagged outer catch). -/
theorem empty_result_page_is_non_error
    (hash : String) (o : Oracle) (r : DVQueryResponse) (c : Nat)
    (st : StatusView) (pc : Nat) (ev : PaginatedResponse DVEvent) (fc : Nat)
    (hlen : hash.length = 40 ∨ hash.length = 64)
    (hhex : isHexOnly hash = true)
    (hcreate : createLoop (o.createResults (dvQueryOf hash)) = LoopResult.success r c)
    (hpoll : pollLoop (o.statusResults r.queryId) = PollResult.done st pc)
    (h1 : st.status ≠ DVStatusKind.FAILED) (h2 : st.status ≠ DVStatusKind.RUNNING)
    (hfetch : fetchLoop (o.eventsResults r.queryId) = LoopResult.success ev fc)
    (hempty : ev.data = []) :
    (handleHashLookup hash o).1 =
      textResult ("No activity found for " ++ hashFieldOf hash ++ " " ++ hash ++
        " in the last 14 days.")
    ∧ (handleHashLookup hash o).1.isError = false
    ∧ ∀ s, (handleHashLookup hash o).1 ≠ errorResult s := by
  have hrl := runLifecycle_empty_results o (hashFieldOf hash) hash r c st pc ev fc
    hcreate hpoll h1 h2 hfetch hempty
  have hb : handleBody hash o =
      (Except.ok (textResult ("No activity found for " ++ hashFieldOf hash ++ " " ++ hash ++
        " in the last 14 days.")), ⟨c, pc, fc⟩) := by
    rw [handleBody_valid hash o hlen hhex, hrl]
  rw [handleHashLookup_of_ok hash o _ _ hb]
  refine ⟨rfl, rfl, ?_⟩
  intro s hcontra
  have := congrArg ToolResult.isError hcontra
  simp [textResult, errorResult] at this

/-- Claim C8, witness: an empty page for the finished job `q1` yields the
non-error outcome, distinct from every error-flagged result. -/
theorem empty_result_page_is_non_error_witness :
    (handleHashLookup sha256Sample emptyResultsOracle).1.isError = false
    ∧ ∀ s, (handleHashLookup sha256Sample emptyResultsOracle).1 ≠ errorResult s := by
  have h := empty_result_page_is_non_error sha256Sample emptyResultsOracle
    ⟨"q1", "RUNNING"⟩ 1 ⟨DVStatusKind.FINISHED, none⟩ 1 ⟨[], some ⟨none, some 0⟩⟩ 1
    (Or.inr (by decide)) (by decide) rfl rfl (by decide) (by decide) rfl rfl
  exact ⟨h.2.1, h.2.2⟩

/-- Claim C9.  On every exit path of the bounded request executor — parsed
success, HTTP error, abort, or transport error — the `finally` block runs:
the event trace of every run ends with `clearTimer`, contains exactly one
`clearTimer`, and contains the `setTimer` that armed the timeout, so no
pending timer is leaked on any path. -/
theorem request_timer_always_cleared {β : Type} (o : FetchOutcome β) :
    (requestEvents o).getLast? = some ReqEvent.clearTimer
    ∧ (requestEvents o).count ReqEvent.clearTimer = 1
    ∧ ReqEvent.setTimer ∈ requestEvents o := by
  unfold requestEvents requestRun
  rcases h : requestTry o with e | v
  · by_cases ha : isAbortError e
    · simp [h, ha]
    · simp [h, ha]
  · simp [h]

lemma runLifecycle_ok_content (o : Oracle) (hf hash : String) (r : ToolResult) (t : Trace)
    (h : runLifecycle o hf hash = (Except.ok r, t)) : r.content.length = 1 := by
  unfold runLifecycle at h
  repeat' split at h
  all_goals simp only [Prod.mk.injEq, Except.ok.injEq] at h
  all_goals
    first
      | exact Except.noConfusion h.1
      | (obtain ⟨h1, h2⟩ := h; subst h1; rfl)

lemma handleBody_ok_content (hash : String) (o : Oracle) (r : ToolResult) (t : Trace)
    (h : handleBody hash o = (Except.ok r, t)) : r.content.length = 1 := by
  unfold handleBody at h
  split at h
  · simp only [Prod.mk.injEq, Except.ok.injEq] at h
    obtain ⟨h1, h2⟩ := h
    subst h1
    rfl
  · split at h
    · simp only [Prod.mk.injEq, Except.ok.injEq] at h
      obtain ⟨h1, h2⟩ := h
      subst h1
      rfl
    · exact runLifecycle_ok_content o (hashFieldOf hash) hash r t h

/-- Claim C10.  The handler never rejects: on every input and every remote
behaviour it resolves with a single text content item; any value thrown
inside the body (creation, polling or fetching included) is caught by the
outer handler and returned as an error-flagged `Error hunting hash` result;
and an input hash whose length is neither 40 nor 64, or that is not purely
hexadecimal, is rejected with an error-flagged result before any network
call is made (all three call counters are zero). -/
theorem handler_never_throws_and_validates (hash : String) (o : Oracle) :
    (handleHashLookup hash o).1.content.length = 1
    ∧ (∀ e t, handleBody hash o = (Except.error e, t) →
        handleHashLookup hash o = (errorResult ("Error hunting hash: " ++ jsMessage e), t))
    ∧ (hash.length ≠ 40 ∧ hash.length ≠ 64 →
        (handleHashLookup hash o).1.isError = true
        ∧ (handleHashLookup hash o).2 = ⟨0, 0, 0⟩)
    ∧ (isHexOnly hash = false →
        (handleHashLookup hash o).1.isError = true
        ∧ (handleHashLookup hash o).2 = ⟨0, 0, 0⟩) := by
  refine ⟨?_, ?_, ?_, ?_⟩
  · rcases hb : handleBody hash o with ⟨res, t⟩
    rcases res with e | rr
    · rw [handleHashLookup_of_thrown hash o e t hb]
      rfl
    · rw [handleHashLookup_of_ok hash o rr t hb]
      exact handleBody_ok_content hash o rr t hb
  · intro e t hb
    exact handleHashLookup_of_thrown hash o e t hb
  · intro hbad
    have hb : handleBody hash o =
        (Except.ok (errorResult
          ("Invalid hash format. Expected SHA1 (40 chars) or SHA256 (64 chars), got " ++
            toString hash.length ++ " chars")), ⟨0, 0, 0⟩) := by
      simp only [handleBody, if_pos hbad]
    rw [handleHashLookup_of_ok hash o _ _ hb]
    exact ⟨rfl, rfl⟩
  · intro hhex
    by_cases hbad : hash.length ≠ 40 ∧ hash.length ≠ 64
    · have hb : handleBody hash o =
          (Except.ok (errorResult
            ("Invalid hash format. Expected SHA1 (40 chars) or SHA256 (64 chars), got " ++
              toString hash.length ++ " chars")), ⟨0, 0, 0⟩) := by
        simp only [handleBody, if_pos hbad]
      rw [handleHashLookup_of_ok hash o _ _ hb]
      exact ⟨rfl, rfl⟩
    · have hb : handleBody hash o =
          (Except.ok (errorResult
            "Invalid hash format. Hash must be hexadecimal characters only."), ⟨0, 0, 0⟩) := by
        simp only [handleBody, if_neg hbad, hhex]
        simp
      rw [handleHashLookup_of_ok hash o _ _ hb]
      exact ⟨rfl, rfl⟩

/-- Claim C10, witness: a 2-character non-hex hash is rejected with an
error-flagged result and zero network calls, and the result has one text
item. -/
theorem handler_never_throws_and_validates_witness :
    (handleHashLookup "zz" emptyResultsOracle).1.content.length = 1
    ∧ (handleHashLookup "zz" emptyResultsOracle).1.isError = true
    ∧ (handleHashLookup "zz" emptyResultsOracle).2 = ⟨0, 0, 0⟩ := by
  have h := handler_never_throws_and_validates "zz" emptyResultsOracle
  have h3 := h.2.2.1 (by decide)
  exact ⟨h.1, h3.1, h3.2⟩
